import Mathlib

/-!
Shallow embedding of the juango admin-mode / impersonation subsystem.

Sources embedded:
- `types.AdminModeState`, `types.ImpersonationState` with their `IsExpired`
  and `Duration` methods (src/unnamed/part_006, src/types/user.go).
  Timestamps are modelled as `Int` instants; the Go zero `time.Time` is the
  instant `0`, and `time.Since(t)` at instant `now` is `now - t`.
- The session value bag (gorilla sessions `Values` map): only the five keys
  this subsystem reads or writes are modelled, each as an `Option` field
  (absent key, or a key holding a value of the wrong dynamic type, is `none`).
- `admin.Handlers.AdminModeDisableHandler`, `ImpersonationStartHandler`,
  `ImpersonationStopHandler`, `stopExpiredImpersonation`
  (src/unnamed/part_000).
- `auth.SessionMiddleware.Authenticate`, `RequireAdminMode`, the context
  construction in `RequireAuth`, and `GetActorIDForAudit`
  (src/unnamed/part_001).

UUIDs are modelled as `Nat`, with `0` standing for `uuid.Nil`.  A UUID
stored in the session as a string is a `UuidStr`: either a string that
`uuid.Parse` accepts (carrying the parsed value) or one it rejects.
Store/save I/O errors are outside the model: the session is an explicit
argument, and each operation reports how many times it called
`session.Save` together with the audit events it emitted.
-/

/-- Go's `strings.TrimSpace`: strip leading and trailing whitespace. -/
def trimSpace (s : String) : String :=
  ⟨((s.data.dropWhile Char.isWhitespace).reverse.dropWhile Char.isWhitespace).reverse⟩

/-- A UUID in string form, as stored in the session `Values` map:
`valid id` parses to the UUID `id` (`0` = `uuid.Nil`), `invalid` is a
string rejected by `uuid.Parse`. -/
inductive UuidStr where
  | valid (id : Nat) : UuidStr
  | invalid : UuidStr
deriving DecidableEq, Repr

/-- `uuid.Parse` on a stored string. -/
def uuidParse : UuidStr → Option Nat
  | .valid id => some id
  | .invalid => none

/-- `types.User`, restricted to the fields this subsystem reads. -/
structure User where
  id : Nat
  email : String
  displayName : String
  isAdmin : Bool
deriving DecidableEq, Repr

/-- `types.AdminModeState` (the elevation grant). -/
structure AdminModeState where
  enabled : Bool
  since : Int
  reason : String
  ipAddress : String
deriving DecidableEq, Repr

/-- `(a *AdminModeState) IsExpired(timeout)`: true when not enabled, else
when `time.Since(a.Since) > timeout`. -/
def AdminModeState.IsExpired (a : AdminModeState) (now timeout : Int) : Bool :=
  if !a.enabled then true else decide (now - a.since > timeout)

/-- `(a *AdminModeState) Duration()`: `time.Since(a.Since)`. -/
def AdminModeState.Duration (a : AdminModeState) (now : Int) : Int :=
  now - a.since

/-- The Go zero value of `types.AdminModeState` (zero `time.Time` is
instant `0`). -/
def zeroAdminModeState : AdminModeState :=
  { enabled := false, since := 0, reason := "", ipAddress := "" }

/-- `types.ImpersonationState` (the impersonation grant). -/
structure ImpersonationState where
  enabled : Bool
  since : Int
  reason : String
  targetUserID : Nat
  targetUserEmail : String
  targetUserName : String
  originalAdminID : Nat
  ipAddress : String
deriving DecidableEq, Repr

/-- `(i *ImpersonationState) IsExpired(timeout)`. -/
def ImpersonationState.IsExpired (i : ImpersonationState) (now timeout : Int) : Bool :=
  if !i.enabled then true else decide (now - i.since > timeout)

/-- `(i *ImpersonationState) Duration()`. -/
def ImpersonationState.Duration (i : ImpersonationState) (now : Int) : Int :=
  now - i.since

/-- The session `Values` map, restricted to the keys this subsystem uses:
`logged` (bool), `user_id` (string), `admin_mode` (`AdminModeState`),
`impersonation_state` (`ImpersonationState`), `original_user_id` (string).
`none` models an absent key or a value failing the Go type assertion. -/
structure Session where
  logged : Option Bool
  userId : Option UuidStr
  adminMode : Option AdminModeState
  impersonationState : Option ImpersonationState
  originalUserId : Option UuidStr
deriving DecidableEq, Repr

/-- The `ok && existingState.Enabled` test of the Start handler: is there a
stored, enabled impersonation grant? -/
def impActive (s : Session) : Bool :=
  match s.impersonationState with
  | some st => st.enabled
  | none => false

/-- `types.HTTPError`, restricted to code and user-facing message. -/
structure HTTPError where
  code : Nat
  msg : String
deriving DecidableEq, Repr

/-- A Go `(value, error)` return. -/
inductive HResult (α : Type) where
  | ok (a : α) : HResult α
  | err (e : HTTPError) : HResult α
deriving DecidableEq, Repr

/-- Audit actions used by this subsystem (`types` action constants). -/
inductive AuditAction where
  | adminModeEnabled
  | adminModeDisabled
  | impersonationStarted
  | impersonationStopped
  | impersonationExpired
deriving DecidableEq, Repr

/-- An audit event, restricted to the fields the claims are about: the
actor (`NullUUID`: `none` = null), the action, the resource ID, and the
`duration` entry of the changes map where the code writes one. -/
structure AuditEvent where
  actor : Option Nat
  action : AuditAction
  resourceID : Nat
  duration : Option Int
deriving DecidableEq, Repr

/-- The request context keys this subsystem stores
(`ContextKeyUser`, `ContextKeyImpersonationState`,
`ContextKeyOriginalAdminID`). -/
structure Ctx where
  user : Option User
  impersonationState : Option ImpersonationState
  originalAdminID : Option Nat
deriving DecidableEq, Repr

/-- `auth.GetUserFromContext`. -/
def getUserFromContext (cx : Ctx) : Option User :=
  cx.user

/-- The fall-through of `GetActorIDForAudit`: the authenticated user's ID
if present in the context, else `uuid.Nil`. -/
def actorFallback (cx : Ctx) : Nat :=
  match cx.user with
  | some u => u.id
  | none => 0

/-- `auth.GetActorIDForAudit`: the original admin ID from the context when
present and non-nil, else the context user's ID, else `uuid.Nil`. -/
def getActorIDForAudit (cx : Ctx) : Nat :=
  match cx.originalAdminID with
  | some oid => if oid ≠ 0 then oid else actorFallback cx
  | none => actorFallback cx

/-- The actor pointer built by `auth.NewAuditLogWithContext`: a null
`NullUUID` when `GetActorIDForAudit` returns `uuid.Nil`. -/
def actorOpt (cx : Ctx) : Option Nat :=
  if getActorIDForAudit cx = 0 then none else some (getActorIDForAudit cx)

/-- The context constructed by `SessionMiddleware.RequireAuth` after a
successful `Authenticate`: the user is stored, and the impersonation state
and original admin ID are stored exactly when the session holds an enabled,
unexpired impersonation grant. -/
def mkAuthCtx (u : User) (s : Session) (now timeout : Int) : Ctx :=
  match s.impersonationState with
  | some imp =>
    if imp.enabled && !(imp.IsExpired now timeout) then
      { user := some u, impersonationState := some imp,
        originalAdminID := some imp.originalAdminID }
    else
      { user := some u, impersonationState := none, originalAdminID := none }
  | none => { user := some u, impersonationState := none, originalAdminID := none }

/-- The outcome of a session-mutating operation: its Go return value, the
session `Values` after the body ran, the number of `session.Save` calls,
and the audit events handed to the audit logger. -/
structure HOut (α : Type) where
  result : HResult α
  session : Session
  saves : Nat
  events : List AuditEvent
deriving Repr

/-- Resolution of `user_id` at the tail of `SessionMiddleware.Authenticate`:
missing key, unparseable ID, and unknown user each yield 401. -/
def authResolve (store : Nat → Option User) (s : Session) : HResult User :=
  match s.userId with
  | none => .err ⟨401, "Invalid session"⟩
  | some uidStr =>
    match uuidParse uidStr with
    | none => .err ⟨401, "Invalid user ID in session"⟩
    | some uid =>
      match store uid with
      | none => .err ⟨401, "User not found"⟩
      | some u => .ok u

/-- `SessionMiddleware.Authenticate` (src/unnamed/part_001, lines 54-121).
Requires `logged`; on an enabled, expired impersonation grant performs the
expiry repair (restore `user_id` from `original_user_id`, delete both
grant keys, save, emit `impersonation.expired` attributed to the grant's
original admin) when `original_user_id` holds a string, and fails the
request with 401 either way; otherwise resolves `user_id`. -/
def authenticate (store : Nat → Option User) (timeout : Int) (s : Session)
    (now : Int) : HOut User :=
  if !(s.logged.getD false) then
    ⟨.err ⟨401, "Authentication required"⟩, s, 0, []⟩
  else
    match s.impersonationState with
    | some impState =>
      if impState.enabled then
        if impState.IsExpired now timeout then
          match s.originalUserId with
          | some origStr =>
            ⟨.err ⟨401, "Impersonation session expired"⟩,
             { s with userId := some origStr, impersonationState := none,
                      originalUserId := none },
             1,
             [⟨some impState.originalAdminID, .impersonationExpired,
               impState.targetUserID, some (impState.Duration now)⟩]⟩
          | none =>
            ⟨.err ⟨401, "Impersonation session expired"⟩, s, 0, []⟩
        else ⟨authResolve store s, s, 0, []⟩
      else ⟨authResolve store s, s, 0, []⟩
    | none => ⟨authResolve store s, s, 0, []⟩

/-- `SessionMiddleware.RequireAdminMode` (src/unnamed/part_001, lines
192-233), up to the decision whether `next` runs: `.ok ()` means the
wrapped handler is invoked. -/
def requireAdminMode (timeout : Int) (u : User) (s : Session) (now : Int) :
    HOut Unit :=
  if !u.isAdmin then
    ⟨.err ⟨403, "Admin privileges required"⟩, s, 0, []⟩
  else
    match s.adminMode with
    | none =>
      ⟨.err ⟨403, "Admin mode must be enabled to perform this action"⟩, s, 0, []⟩
    | some adminState =>
      if !adminState.enabled then
        ⟨.err ⟨403, "Admin mode must be enabled to perform this action"⟩, s, 0, []⟩
      else if adminState.IsExpired now timeout then
        ⟨.err ⟨403, "Admin mode session expired. Please re-enable admin mode."⟩,
         { s with adminMode := none }, 1, []⟩
      else ⟨.ok (), s, 0, []⟩

/-- `admin.Handlers.AdminModeDisableHandler` (src/unnamed/part_000, lines
140-196): reads the prior grant (Go zero value when absent), deletes
`admin_mode`, `impersonation_state` and `original_user_id`, saves once, and
emits `admin_mode.disabled` whose duration is the prior grant's
`Duration()`. `u` is `GetUserFromContext(ctx)`. -/
def adminModeDisableHandler (cx : Ctx) (u : User) (s : Session) (now : Int)
    (_ip : String) : HOut Unit :=
  let previousState : AdminModeState :=
    match s.adminMode with
    | some st => st
    | none => zeroAdminModeState
  let s' : Session :=
    { s with adminMode := none, impersonationState := none, originalUserId := none }
  ⟨.ok (), s', 1,
   [⟨actorOpt cx, .adminModeDisabled, u.id, some (previousState.Duration now)⟩]⟩

/-- `types.ImpersonationStartRequest`, after JSON decoding. -/
structure ImpersonationStartRequest where
  targetUserID : UuidStr
  reason : String
deriving DecidableEq, Repr

/-- `admin.Handlers.ImpersonationStartHandler` (src/unnamed/part_000, lines
199-307): validates in order — non-blank reason, parseable non-nil target,
target distinct from the caller, no enabled grant already stored, target
found, target not an admin — then writes `impersonation_state`,
`original_user_id` and `user_id` and saves once. `au` is
`GetUserFromContext(ctx)`. -/
def impersonationStartHandler (store : Nat → Option User) (cx : Ctx) (au : User)
    (rq : ImpersonationStartRequest) (s : Session) (now : Int) (ip : String) :
    HOut ImpersonationState :=
  if trimSpace rq.reason = "" then
    ⟨.err ⟨400, "Reason is required for impersonation"⟩, s, 0, []⟩
  else
    match uuidParse rq.targetUserID with
    | none => ⟨.err ⟨400, "Target user ID is required"⟩, s, 0, []⟩
    | some targetUserID =>
      if targetUserID = 0 then
        ⟨.err ⟨400, "Target user ID is required"⟩, s, 0, []⟩
      else if targetUserID = au.id then
        ⟨.err ⟨400, "Cannot impersonate yourself"⟩, s, 0, []⟩
      else if impActive s then
        ⟨.err ⟨400, "Already impersonating another user. Stop current impersonation first."⟩,
         s, 0, []⟩
      else
        match store targetUserID with
        | none => ⟨.err ⟨404, "Target user not found"⟩, s, 0, []⟩
        | some targetUser =>
          if targetUser.isAdmin then
            ⟨.err ⟨403, "Cannot impersonate admin users"⟩, s, 0, []⟩
          else
            let st : ImpersonationState :=
              { enabled := true, since := now, reason := trimSpace rq.reason,
                targetUserID := targetUser.id, targetUserEmail := targetUser.email,
                targetUserName := targetUser.displayName,
                originalAdminID := au.id, ipAddress := ip }
            ⟨.ok st,
             { s with impersonationState := some st,
                      originalUserId := some (.valid au.id),
                      userId := some (.valid targetUser.id) },
             1,
             [⟨actorOpt cx, .impersonationStarted, targetUser.id, none⟩]⟩

/-- `admin.Handlers.ImpersonationStopHandler` (src/unnamed/part_000, lines
309-393): requires an enabled grant and a parseable `original_user_id`
string, then restores `user_id` to that string, deletes both grant keys,
saves once, and emits `impersonation.stopped`. The admin-record fetch only
feeds the log line and cannot fail the stop. -/
def impersonationStopHandler (cx : Ctx) (s : Session) (now : Int) (_ip : String) :
    HOut Unit :=
  match s.impersonationState with
  | none => ⟨.err ⟨400, "Not currently impersonating"⟩, s, 0, []⟩
  | some impersonationState =>
    if !impersonationState.enabled then
      ⟨.err ⟨400, "Not currently impersonating"⟩, s, 0, []⟩
    else
      match s.originalUserId with
      | none => ⟨.err ⟨500, "Original user ID not found in session"⟩, s, 0, []⟩
      | some origStr =>
        match uuidParse origStr with
        | none => ⟨.err ⟨500, "Invalid original user ID in session"⟩, s, 0, []⟩
        | some _originalAdminID =>
          ⟨.ok (),
           { s with userId := some origStr, impersonationState := none,
                    originalUserId := none },
           1,
           [⟨actorOpt cx, .impersonationStopped, impersonationState.targetUserID,
             some (impersonationState.Duration now)⟩]⟩

/-- `admin.Handlers.stopExpiredImpersonation` (src/unnamed/part_000, lines
421-467), the expiry cleanup of the impersonation status endpoint: when
`original_user_id` holds a parseable string, restores `user_id`, deletes
both grant keys, saves, and emits `impersonation.expired`; otherwise only
logs and leaves the session alone. -/
def stopExpiredImpersonation (cx : Ctx) (s : Session) (state : ImpersonationState)
    (now : Int) : HOut Unit :=
  match s.originalUserId with
  | none => ⟨.ok (), s, 0, []⟩
  | some origStr =>
    match uuidParse origStr with
    | none => ⟨.ok (), s, 0, []⟩
    | some _originalAdminID =>
      ⟨.ok (),
       { s with userId := some origStr, impersonationState := none,
                originalUserId := none },
       1,
       [⟨actorOpt cx, .impersonationExpired, state.targetUserID,
         some (state.Duration now)⟩]⟩

/-- The session-shape invariant of the spec's data model:
`original_user_id` is present exactly when `impersonation_state` is. -/
def sessionInv (s : Session) : Prop :=
  s.originalUserId.isSome = s.impersonationState.isSome

instance (s : Session) : Decidable (sessionInv s) := by
  unfold sessionInv; infer_instance

/-! ### Concrete fixtures used by witnesses and counterexamples -/

/-- An admin user (ID 1). -/
def adminA : User :=
  { id := 1, email := "a@example.com", displayName := "Admin A", isAdmin := true }

/-- A non-admin user (ID 2). -/
def userB : User :=
  { id := 2, email := "b@example.com", displayName := "User B", isAdmin := false }

/-- A second admin user (ID 3). -/
def adminC : User :=
  { id := 3, email := "c@example.com", displayName := "Admin C", isAdmin := true }

/-- A user store holding the three fixture users. -/
def demoStore : Nat → Option User := fun i =>
  if i = 1 then some adminA
  else if i = 2 then some userB
  else if i = 3 then some adminC
  else none

/-- A request context for `adminA` with no impersonation. -/
def ctxA : Ctx :=
  { user := some adminA, impersonationState := none, originalAdminID := none }

/-- An elevation grant issued at instant 10. -/
def elevGrant : AdminModeState :=
  { enabled := true, since := 10, reason := "ops", ipAddress := "203.0.113.5" }

/-- An impersonation grant: `adminA` acting as `userB` since instant 10. -/
def impGrant : ImpersonationState :=
  { enabled := true, since := 10, reason := "debug", targetUserID := 2,
    targetUserEmail := "b@example.com", targetUserName := "User B",
    originalAdminID := 1, ipAddress := "203.0.113.5" }

/-- Session of `adminA`: logged in, elevated, not impersonating. -/
def sPlain : Session :=
  { logged := some true, userId := some (.valid 1), adminMode := some elevGrant,
    impersonationState := none, originalUserId := none }

/-- Session with both grants active: `adminA` elevated and impersonating
`userB` (`user_id` holds the target's ID 2). -/
def sImp : Session :=
  { logged := some true, userId := some (.valid 2), adminMode := some elevGrant,
    impersonationState := some impGrant, originalUserId := some (.valid 1) }

/-- `sImp` with the `original_user_id` key missing. -/
def sImpNoOrig : Session :=
  { sImp with originalUserId := none }

/-- Session of `adminA` with no elevation and no impersonation. -/
def sNoGrant : Session :=
  { logged := some true, userId := some (.valid 1), adminMode := none,
    impersonationState := none, originalUserId := none }

/-- Whether a Go `(value, error)` return carries a non-nil error. -/
def isErr {α : Type} : HResult α → Bool
  | .ok _ => false
  | .err _ => true

/-! ### Claims -/

/-- Claim C1 (behaviour at the failing input): with both the elevation
grant and an impersonation grant active (`user_id` = target ID 2,
`original_user_id` = admin ID 1), `AdminModeDisableHandler` leaves the
elevation grant, the impersonation grant and `original_user_id` absent —
but it does not restore `user_id`: the session keeps the target's ID 2
instead of the original admin's ID 1, and the deleted `original_user_id`
makes the admin identity unrecoverable. -/
theorem adminModeDisable_does_not_restore_identity :
    (adminModeDisableHandler ctxA adminA sImp 50 "203.0.113.5").session.adminMode = none ∧
    (adminModeDisableHandler ctxA adminA sImp 50 "203.0.113.5").session.impersonationState = none ∧
    (adminModeDisableHandler ctxA adminA sImp 50 "203.0.113.5").session.originalUserId = none ∧
    (adminModeDisableHandler ctxA adminA sImp 50 "203.0.113.5").session.userId = some (.valid 2) ∧
    sImp.userId = some (.valid 2) ∧
    sImp.originalUserId = some (.valid 1) ∧
    (UuidStr.valid 2 ≠ UuidStr.valid 1) := by
  decide

/-- Claim C8 (amended): elevation Disable always succeeds, and when no
elevation grant exists in the session the emitted `admin_mode.disabled`
event reports the duration of the Go zero-value grant — the time elapsed
since the zero timestamp, which is the current instant itself — rather
than zero. -/
theorem adminModeDisable_idempotent_duration (cx : Ctx) (u : User) (s : Session)
    (now : Int) (ip : String) :
    (adminModeDisableHandler cx u s now ip).result = HResult.ok () ∧
    (s.adminMode = none →
      (adminModeDisableHandler cx u s now ip).events =
        [⟨actorOpt cx, .adminModeDisabled, u.id, some (zeroAdminModeState.Duration now)⟩]) := by
  refine ⟨rfl, fun h => ?_⟩
  simp [adminModeDisableHandler, h]

/-- Claim C8 witness: concrete instance of the amended claim. -/
theorem adminModeDisable_idempotent_duration_witness :
    (adminModeDisableHandler ctxA adminA sNoGrant 100 "ip").result = HResult.ok () ∧
    (adminModeDisableHandler ctxA adminA sNoGrant 100 "ip").events =
      [⟨some 1, .adminModeDisabled, 1, some 100⟩] := by
  refine ⟨(adminModeDisable_idempotent_duration ctxA adminA sNoGrant 100 "ip").1, ?_⟩
  have h := (adminModeDisable_idempotent_duration ctxA adminA sNoGrant 100 "ip").2 rfl
  rw [h]
  decide

/-- Claim C8 counterexample: at instant 100, with no elevation grant in the
session, Disable succeeds but the disable event carries duration 100, not
the zero duration the claim states. -/
theorem adminModeDisable_duration_not_zero_cex :
    sNoGrant.adminMode = none ∧
    (adminModeDisableHandler ctxA adminA sNoGrant 100 "ip").result = HResult.ok () ∧
    (adminModeDisableHandler ctxA adminA sNoGrant 100 "ip").events.map AuditEvent.duration =
      [some 100] ∧
    some (100 : Int) ≠ some (0 : Int) := by
  decide

/-- Claim C5 (amended): whenever the impersonation Start call reaches
target resolution — non-blank justification, parseable non-nil target
distinct from the caller, and no enabled impersonation grant stored — and
the resolved target user record has the admin role, the call fails with
Forbidden (403) and mutates nothing, whatever the (non-blank)
justification says. -/
theorem impersonationStart_adminTarget_forbidden
    (store : Nat → Option User) (cx : Ctx) (au : User)
    (rq : ImpersonationStartRequest) (s : Session) (now : Int) (ip : String)
    (tid : Nat) (tu : User)
    (hr : trimSpace rq.reason ≠ "")
    (hp : uuidParse rq.targetUserID = some tid)
    (hnz : tid ≠ 0)
    (hself : tid ≠ au.id)
    (himp : impActive s = false)
    (hstore : store tid = some tu)
    (hadm : tu.isAdmin = true) :
    (impersonationStartHandler store cx au rq s now ip).result =
      HResult.err ⟨403, "Cannot impersonate admin users"⟩ ∧
    (impersonationStartHandler store cx au rq s now ip).session = s ∧
    (impersonationStartHandler store cx au rq s now ip).saves = 0 := by
  simp [impersonationStartHandler, hr, hp, hnz, hself, himp, hstore, hadm]

/-- Claim C5 witness: `adminA` (ID 1), with a non-blank reason and no
active impersonation, targets admin `adminC` (ID 3) and is refused with
403. -/
theorem impersonationStart_adminTarget_forbidden_witness :
    (impersonationStartHandler demoStore ctxA adminA ⟨.valid 3, "debug"⟩ sPlain 20 "ip").result =
      HResult.err ⟨403, "Cannot impersonate admin users"⟩ :=
  (impersonationStart_adminTarget_forbidden demoStore ctxA adminA ⟨.valid 3, "debug"⟩
    sPlain 20 "ip" 3 adminC (by decide) rfl (by decide) (by decide) (by decide)
    (by decide) rfl).1

/-- Claim C5 counterexample: with a blank justification the very same
admin-targeting Start call fails with 400 before the target is ever
resolved — not with the Forbidden (403) the claim promises for every
justification. -/
theorem impersonationStart_adminTarget_blank_reason_cex :
    demoStore 3 = some adminC ∧
    adminC.isAdmin = true ∧
    (impersonationStartHandler demoStore ctxA adminA ⟨.valid 3, ""⟩ sPlain 20 "ip").result =
      HResult.err ⟨400, "Reason is required for impersonation"⟩ ∧
    (impersonationStartHandler demoStore ctxA adminA ⟨.valid 3, ""⟩ sPlain 20 "ip").result ≠
      HResult.err ⟨403, "Cannot impersonate admin users"⟩ := by
  decide

/-- Claim C2: when a logged-in session holds an enabled impersonation grant
whose age exceeds the timeout and the session stores the original-identity
string (as every grant written by Start does), `Authenticate` restores
`user_id` to that string, deletes `impersonation_state` and
`original_user_id`, saves the session once, emits an
`impersonation.expired` event attributed to the grant's original admin,
and fails the request with 401 — it never returns a user resolved under
the target identity. -/
theorem authenticate_expired_impersonation_repairs_and_fails
    (store : Nat → Option User) (timeout : Int) (s : Session) (now : Int)
    (imp : ImpersonationState) (orig : UuidStr)
    (hlog : s.logged = some true)
    (himp : s.impersonationState = some imp)
    (hen : imp.enabled = true)
    (hexp : now - imp.since > timeout)
    (horig : s.originalUserId = some orig) :
    (authenticate store timeout s now).result =
      HResult.err ⟨401, "Impersonation session expired"⟩ ∧
    (authenticate store timeout s now).session =
      { s with userId := some orig, impersonationState := none, originalUserId := none } ∧
    (authenticate store timeout s now).saves = 1 ∧
    (authenticate store timeout s now).events =
      [⟨some imp.originalAdminID, .impersonationExpired, imp.targetUserID,
        some (imp.Duration now)⟩] := by
  simp [authenticate, hlog, himp, hen, horig, ImpersonationState.IsExpired, hexp]

/-- Claim C2 witness: with timeout 5 at instant 50, the expired grant of
`sImp` is repaired (identity back to admin ID 1), audited, and the request
fails 401. -/
theorem authenticate_expiry_repair_witness :
    (authenticate demoStore 5 sImp 50).result =
      HResult.err ⟨401, "Impersonation session expired"⟩ ∧
    (authenticate demoStore 5 sImp 50).session =
      { sImp with userId := some (.valid 1), impersonationState := none,
                  originalUserId := none } ∧
    (authenticate demoStore 5 sImp 50).saves = 1 ∧
    (authenticate demoStore 5 sImp 50).events =
      [⟨some 1, .impersonationExpired, 2, some 40⟩] :=
  authenticate_expired_impersonation_repairs_and_fails demoStore 5 sImp 50 impGrant
    (.valid 1) rfl rfl rfl (by decide) rfl

/-- Claim C10: when a logged-in session holds an enabled impersonation
grant past the timeout but no `original_user_id` string, `Authenticate`
performs no repair — the session is unchanged, nothing is saved, no audit
event is emitted — yet the request still fails with 401. -/
theorem authenticate_expired_missing_original_no_repair
    (store : Nat → Option User) (timeout : Int) (s : Session) (now : Int)
    (imp : ImpersonationState)
    (hlog : s.logged = some true)
    (himp : s.impersonationState = some imp)
    (hen : imp.enabled = true)
    (hexp : now - imp.since > timeout)
    (horig : s.originalUserId = none) :
    (authenticate store timeout s now).result =
      HResult.err ⟨401, "Impersonation session expired"⟩ ∧
    (authenticate store timeout s now).session = s ∧
    (authenticate store timeout s now).saves = 0 ∧
    (authenticate store timeout s now).events = [] := by
  simp [authenticate, hlog, himp, hen, horig, ImpersonationState.IsExpired, hexp]

/-- Claim C10 witness: `sImpNoOrig` at instant 50 with timeout 5. -/
theorem authenticate_expired_missing_original_witness :
    (authenticate demoStore 5 sImpNoOrig 50).result =
      HResult.err ⟨401, "Impersonation session expired"⟩ ∧
    (authenticate demoStore 5 sImpNoOrig 50).session = sImpNoOrig ∧
    (authenticate demoStore 5 sImpNoOrig 50).saves = 0 ∧
    (authenticate demoStore 5 sImpNoOrig 50).events = [] :=
  authenticate_expired_missing_original_no_repair demoStore 5 sImpNoOrig 50 impGrant
    rfl rfl rfl (by decide) rfl

/-- Claim C7: `RequireAdminMode` lets the wrapped handler run only when the
elevation grant is present, enabled, and aged at most the timeout; whenever
those conditions fail it denies with a 403; a grant aged exactly the
timeout is still accepted (expiry is age strictly greater); and an
admin's present, enabled grant past the timeout is deleted from the
session and persisted before the 403 is returned. -/
theorem requireAdminMode_gate (timeout : Int) (u : User) (s : Session) (now : Int) :
    ((requireAdminMode timeout u s now).result = HResult.ok () →
      ∃ a, s.adminMode = some a ∧ a.enabled = true ∧ now - a.since ≤ timeout) ∧
    ((∀ a, s.adminMode = some a → a.enabled = true → now - a.since ≤ timeout → False) →
      ∃ e, (requireAdminMode timeout u s now).result = HResult.err e ∧ e.code = 403) ∧
    (∀ a, u.isAdmin = true → s.adminMode = some a → a.enabled = true →
      now - a.since = timeout →
      (requireAdminMode timeout u s now).result = HResult.ok ()) ∧
    (∀ a, u.isAdmin = true → s.adminMode = some a → a.enabled = true →
      now - a.since > timeout →
      (requireAdminMode timeout u s now).result =
        HResult.err ⟨403, "Admin mode session expired. Please re-enable admin mode."⟩ ∧
      (requireAdminMode timeout u s now).session = { s with adminMode := none } ∧
      (requireAdminMode timeout u s now).saves = 1) := by
  refine ⟨?_, ?_, ?_, ?_⟩
  · intro hok
    by_cases ha : u.isAdmin
    · match hs : s.adminMode with
      | none => simp [requireAdminMode, ha, hs] at hok
      | some a =>
        by_cases he : a.enabled
        · by_cases hx : now - a.since > timeout
          · simp [requireAdminMode, ha, hs, he, AdminModeState.IsExpired, hx] at hok
          · exact ⟨a, rfl, he, by omega⟩
        · simp [requireAdminMode, ha, hs, he] at hok
    · simp [requireAdminMode, ha] at hok
  · intro hno
    by_cases ha : u.isAdmin
    · match hs : s.adminMode with
      | none =>
        exact ⟨⟨403, "Admin mode must be enabled to perform this action"⟩,
          by simp [requireAdminMode, ha, hs], rfl⟩
      | some a =>
        by_cases he : a.enabled
        · have hx : now - a.since > timeout := by
            by_contra hle
            exact hno a hs he (by omega)
          exact ⟨⟨403, "Admin mode session expired. Please re-enable admin mode."⟩,
            by simp [requireAdminMode, ha, hs, he, AdminModeState.IsExpired, hx], rfl⟩
        · exact ⟨⟨403, "Admin mode must be enabled to perform this action"⟩,
            by simp [requireAdminMode, ha, hs, he], rfl⟩
    · exact ⟨⟨403, "Admin privileges required"⟩, by simp [requireAdminMode, ha], rfl⟩
  · intro a ha hs he hEq
    have hx : ¬(now - a.since > timeout) := by omega
    simp [requireAdminMode, ha, hs, he, AdminModeState.IsExpired, hx]
  · intro a ha hs he hx
    refine ⟨?_, ?_, ?_⟩ <;>
      simp [requireAdminMode, ha, hs, he, AdminModeState.IsExpired, hx]

/-- Claim C7 witness: at instant 50 the grant of `sPlain` (since 10) passes
with timeout 40 (age exactly the timeout) and, with timeout 5, is deleted
from the session as the gate denies. -/
theorem requireAdminMode_gate_witness :
    (requireAdminMode 40 adminA sPlain 50).result = HResult.ok () ∧
    (requireAdminMode 5 adminA sPlain 50).session = { sPlain with adminMode := none } ∧
    (requireAdminMode 5 adminA sPlain 50).saves = 1 := by
  refine ⟨?_, ?_, ?_⟩
  · exact (requireAdminMode_gate 40 adminA sPlain 50).2.2.1 elevGrant rfl rfl rfl (by decide)
  · exact ((requireAdminMode_gate 5 adminA sPlain 50).2.2.2 elevGrant rfl rfl rfl
      (by decide)).2.1
  · exact ((requireAdminMode_gate 5 adminA sPlain 50).2.2.2 elevGrant rfl rfl rfl
      (by decide)).2.2

/-- Claim C4: impersonation Start short-circuits — every failed
precondition yields its own error (blank reason 400; unparseable or nil
target 400; self-target 400; grant already enabled 400; target not found
404; admin target 403) with the session untouched, nothing saved and no
audit emitted, and the session is saved exactly once, only on success. -/
theorem impersonationStart_short_circuit
    (store : Nat → Option User) (cx : Ctx) (au : User)
    (rq : ImpersonationStartRequest) (s : Session) (now : Int) (ip : String) :
    (isErr (impersonationStartHandler store cx au rq s now ip).result = true →
      (impersonationStartHandler store cx au rq s now ip).session = s ∧
      (impersonationStartHandler store cx au rq s now ip).saves = 0 ∧
      (impersonationStartHandler store cx au rq s now ip).events = []) ∧
    (isErr (impersonationStartHandler store cx au rq s now ip).result = false →
      (impersonationStartHandler store cx au rq s now ip).saves = 1) ∧
    (trimSpace rq.reason = "" →
      (impersonationStartHandler store cx au rq s now ip).result =
        HResult.err ⟨400, "Reason is required for impersonation"⟩) ∧
    (trimSpace rq.reason ≠ "" → uuidParse rq.targetUserID = none →
      (impersonationStartHandler store cx au rq s now ip).result =
        HResult.err ⟨400, "Target user ID is required"⟩) ∧
    (∀ tid, trimSpace rq.reason ≠ "" → uuidParse rq.targetUserID = some tid →
      tid = 0 →
      (impersonationStartHandler store cx au rq s now ip).result =
        HResult.err ⟨400, "Target user ID is required"⟩) ∧
    (∀ tid, trimSpace rq.reason ≠ "" → uuidParse rq.targetUserID = some tid →
      tid ≠ 0 → tid = au.id →
      (impersonationStartHandler store cx au rq s now ip).result =
        HResult.err ⟨400, "Cannot impersonate yourself"⟩) ∧
    (∀ tid, trimSpace rq.reason ≠ "" → uuidParse rq.targetUserID = some tid →
      tid ≠ 0 → tid ≠ au.id → impActive s = true →
      (impersonationStartHandler store cx au rq s now ip).result =
        HResult.err ⟨400, "Already impersonating another user. Stop current impersonation first."⟩) ∧
    (∀ tid, trimSpace rq.reason ≠ "" → uuidParse rq.targetUserID = some tid →
      tid ≠ 0 → tid ≠ au.id → impActive s = false → store tid = none →
      (impersonationStartHandler store cx au rq s now ip).result =
        HResult.err ⟨404, "Target user not found"⟩) ∧
    (∀ tid, trimSpace rq.reason ≠ "" → uuidParse rq.targetUserID = some tid →
      tid ≠ 0 → tid ≠ au.id → impActive s = false →
      ∀ tu, store tid = some tu → tu.isAdmin = true →
      (impersonationStartHandler store cx au rq s now ip).result =
        HResult.err ⟨403, "Cannot impersonate admin users"⟩) := by
  by_cases hr : trimSpace rq.reason = ""
  · simp [impersonationStartHandler, isErr, hr]
  · match hp : uuidParse rq.targetUserID with
    | none => simp [impersonationStartHandler, isErr, hr, hp]
    | some tid =>
      by_cases hz : tid = 0
      · simp [impersonationStartHandler, isErr, hr, hp, hz]
      · by_cases hself : tid = au.id
        · have hz' : ¬(au.id = 0) := hself ▸ hz
          simp [impersonationStartHandler, isErr, hr, hp, hz, hself, hz']
        · by_cases hact : impActive s
          · simp [impersonationStartHandler, isErr, hr, hp, hz, hself, hact]
          · match hu : store tid with
            | none => simp [impersonationStartHandler, isErr, hr, hp, hz, hself, hact, hu]
            | some tu =>
              by_cases hadm : tu.isAdmin
              · simp [impersonationStartHandler, isErr, hr, hp, hz, hself, hact, hu, hadm]
              · simp [impersonationStartHandler, isErr, hr, hp, hz, hself, hact, hu, hadm]

/-- Claim C4 witness: a self-targeting Start (admin ID 1 targeting ID 1)
fails with 400 and leaves the session as it was. -/
theorem impersonationStart_short_circuit_witness :
    (impersonationStartHandler demoStore ctxA adminA ⟨.valid 1, "debug"⟩ sPlain 20 "ip").result =
      HResult.err ⟨400, "Cannot impersonate yourself"⟩ ∧
    (impersonationStartHandler demoStore ctxA adminA ⟨.valid 1, "debug"⟩ sPlain 20 "ip").session =
      sPlain := by
  have h := impersonationStart_short_circuit demoStore ctxA adminA ⟨.valid 1, "debug"⟩
    sPlain 20 "ip"
  have hres := (h.2.2.2.2.2.1 : _) 1 (by decide) rfl (by decide) rfl
  exact ⟨hres, (h.1 (by rw [hres]; rfl)).1⟩

/-- Helper: a successful Start leaves an enabled grant in the session. -/
theorem start_ok_session (store : Nat → Option User) (cx : Ctx) (au : User)
    (rq : ImpersonationStartRequest) (s : Session) (now : Int) (ip : String)
    (st : ImpersonationState)
    (hok : (impersonationStartHandler store cx au rq s now ip).result = HResult.ok st) :
    (impersonationStartHandler store cx au rq s now ip).session.impersonationState =
      some st ∧ st.enabled = true := by
  by_cases hr : trimSpace rq.reason = ""
  · simp [impersonationStartHandler, hr] at hok
  · match hp : uuidParse rq.targetUserID with
    | none => simp [impersonationStartHandler, hr, hp] at hok
    | some tid =>
      by_cases hz : tid = 0
      · simp [impersonationStartHandler, hr, hp, hz] at hok
      · by_cases hself : tid = au.id
        · have hz' : ¬(au.id = 0) := hself ▸ hz
          simp [impersonationStartHandler, hr, hp, hz, hself, hz'] at hok
        · by_cases hact : impActive s
          · simp [impersonationStartHandler, hr, hp, hz, hself, hact] at hok
          · match hu : store tid with
            | none => simp [impersonationStartHandler, hr, hp, hz, hself, hact, hu] at hok
            | some tu =>
              by_cases hadm : tu.isAdmin
              · simp [impersonationStartHandler, hr, hp, hz, hself, hact, hu, hadm] at hok
              · simp [impersonationStartHandler, hr, hp, hz, hself, hact, hu, hadm] at hok ⊢
                rw [← hok]
                exact ⟨rfl, rfl⟩

/-- Helper: with an enabled grant already stored, Start fails with some 400
error (whichever precondition trips first) and mutates nothing. -/
theorem start_blocked (store : Nat → Option User) (cx : Ctx) (au : User)
    (rq : ImpersonationStartRequest) (s : Session) (now : Int) (ip : String)
    (hact : impActive s = true) :
    (∃ msg, (impersonationStartHandler store cx au rq s now ip).result =
      HResult.err ⟨400, msg⟩) ∧
    (impersonationStartHandler store cx au rq s now ip).session = s ∧
    (impersonationStartHandler store cx au rq s now ip).saves = 0 := by
  by_cases hr : trimSpace rq.reason = ""
  · refine ⟨⟨"Reason is required for impersonation", ?_⟩, ?_, ?_⟩ <;>
      simp [impersonationStartHandler, hr]
  · match hp : uuidParse rq.targetUserID with
    | none =>
      refine ⟨⟨"Target user ID is required", ?_⟩, ?_, ?_⟩ <;>
        simp [impersonationStartHandler, hr, hp]
    | some tid =>
      by_cases hz : tid = 0
      · refine ⟨⟨"Target user ID is required", ?_⟩, ?_, ?_⟩ <;>
          simp [impersonationStartHandler, hr, hp, hz]
      · by_cases hself : tid = au.id
        · have hz' : ¬(au.id = 0) := hself ▸ hz
          refine ⟨⟨"Cannot impersonate yourself", ?_⟩, ?_, ?_⟩ <;>
            simp [impersonationStartHandler, hr, hp, hz, hself, hz']
        · refine ⟨⟨"Already impersonating another user. Stop current impersonation first.", ?_⟩,
            ?_, ?_⟩ <;>
            simp [impersonationStartHandler, hr, hp, hz, hself, hact]

/-- Claim C6: once a Start has succeeded, any further Start on the
resulting session — any store, caller, target or reason — fails with a 400
error, leaves the session untouched and saves nothing. -/
theorem impersonationStart_single_active
    (store store₂ : Nat → Option User) (cx cx₂ : Ctx) (au au₂ : User)
    (rq rq₂ : ImpersonationStartRequest) (s : Session) (now now₂ : Int)
    (ip ip₂ : String) (st : ImpersonationState)
    (hok : (impersonationStartHandler store cx au rq s now ip).result = HResult.ok st) :
    (∃ msg, (impersonationStartHandler store₂ cx₂ au₂ rq₂
        (impersonationStartHandler store cx au rq s now ip).session now₂ ip₂).result =
      HResult.err ⟨400, msg⟩) ∧
    (impersonationStartHandler store₂ cx₂ au₂ rq₂
        (impersonationStartHandler store cx au rq s now ip).session now₂ ip₂).session =
      (impersonationStartHandler store cx au rq s now ip).session ∧
    (impersonationStartHandler store₂ cx₂ au₂ rq₂
        (impersonationStartHandler store cx au rq s now ip).session now₂ ip₂).saves = 0 := by
  have h1 := start_ok_session store cx au rq s now ip st hok
  have hact : impActive (impersonationStartHandler store cx au rq s now ip).session = true := by
    unfold impActive
    rw [h1.1]
    exact h1.2
  exact start_blocked store₂ cx₂ au₂ rq₂ _ now₂ ip₂ hact

/-- Claim C6 witness: after `adminA` successfully starts impersonating
`userB`, an identical second Start call on the resulting session saves
nothing and returns a 400 error. -/
theorem impersonationStart_single_active_witness :
    (impersonationStartHandler demoStore ctxA adminA ⟨.valid 2, "debug"⟩
      (impersonationStartHandler demoStore ctxA adminA ⟨.valid 2, "debug"⟩ sPlain 20 "ip").session
      30 "ip").saves = 0 ∧
    (impersonationStartHandler demoStore ctxA adminA ⟨.valid 2, "debug"⟩
      (impersonationStartHandler demoStore ctxA adminA ⟨.valid 2, "debug"⟩ sPlain 20 "ip").session
      30 "ip").result =
      HResult.err ⟨400, "Already impersonating another user. Stop current impersonation first."⟩ := by
  have h := impersonationStart_single_active demoStore demoStore ctxA ctxA adminA adminA
    ⟨.valid 2, "debug"⟩ ⟨.valid 2, "debug"⟩ sPlain 20 30 "ip" "ip"
    { enabled := true, since := 20, reason := "debug", targetUserID := 2,
      targetUserEmail := "b@example.com", targetUserName := "User B",
      originalAdminID := 1, ipAddress := "ip" }
    (by decide)
  exact ⟨h.2.2, by decide⟩

/-- Claim C9: the data-model invariant "`original_user_id` present iff
`impersonation_state` present" holds of a fresh grant-free session and is
preserved by every lifecycle operation — impersonation Start and Stop,
elevation Disable, and both expiry-cleanup paths (the `Authenticate` repair
and the status endpoint's `stopExpiredImpersonation`) — each of which sets
or deletes the two keys together. -/
theorem session_original_iff_impersonation :
    sessionInv sNoGrant ∧
    (∀ store cx au rq s now ip, sessionInv s →
      sessionInv (impersonationStartHandler store cx au rq s now ip).session) ∧
    (∀ cx s now ip, sessionInv s →
      sessionInv (impersonationStopHandler cx s now ip).session) ∧
    (∀ cx u s now ip, sessionInv s →
      sessionInv (adminModeDisableHandler cx u s now ip).session) ∧
    (∀ store timeout s now, sessionInv s →
      sessionInv (authenticate store timeout s now).session) ∧
    (∀ cx s state now, sessionInv s →
      sessionInv (stopExpiredImpersonation cx s state now).session) := by
  refine ⟨by decide, ?_, ?_, ?_, ?_, ?_⟩
  · intro store cx au rq s now ip hs
    unfold impersonationStartHandler
    repeat' split
    all_goals simpa [sessionInv] using hs
  · intro cx s now ip hs
    unfold impersonationStopHandler
    repeat' split
    all_goals simpa [sessionInv] using hs
  · intro cx u s now ip hs
    unfold adminModeDisableHandler
    simp [sessionInv]
  · intro store timeout s now hs
    unfold authenticate
    repeat' split
    all_goals simpa [sessionInv] using hs
  · intro cx s state now hs
    unfold stopExpiredImpersonation
    repeat' split
    all_goals simpa [sessionInv] using hs

/-- Claim C9 witness: concrete instances — Start on a grant-free session
and Disable on a session with both grants each leave the invariant intact. -/
theorem session_original_iff_impersonation_witness :
    sessionInv (impersonationStartHandler demoStore ctxA adminA ⟨.valid 2, "debug"⟩
      sPlain 20 "ip").session ∧
    sessionInv (adminModeDisableHandler ctxA adminA sImp 50 "ip").session := by
  refine ⟨?_, ?_⟩
  · exact (session_original_iff_impersonation).2.1 demoStore ctxA adminA ⟨.valid 2, "debug"⟩
      sPlain 20 "ip" (by decide)
  · exact (session_original_iff_impersonation).2.2.2.1 ctxA adminA sImp 50 "ip" (by decide)

/-- Claim C3: on the context the middleware builds, the audit attribution
helper returns the original admin's ID whenever the session holds an
active (enabled, unexpired) impersonation grant with a non-nil original
admin ID — and then never the target's ID, the two being distinct — and
returns the authenticated user's ID otherwise. -/
theorem actorForAudit_attribution (u : User) (s : Session) (now timeout : Int) :
    (∀ imp, s.impersonationState = some imp → imp.enabled = true →
      imp.IsExpired now timeout = false → imp.originalAdminID ≠ 0 →
      getActorIDForAudit (mkAuthCtx u s now timeout) = imp.originalAdminID ∧
      (imp.targetUserID ≠ imp.originalAdminID →
        getActorIDForAudit (mkAuthCtx u s now timeout) ≠ imp.targetUserID)) ∧
    ((∀ imp, s.impersonationState = some imp →
        imp.enabled = false ∨ imp.IsExpired now timeout = true) →
      getActorIDForAudit (mkAuthCtx u s now timeout) = u.id) ∧
    (s.impersonationState = none →
      getActorIDForAudit (mkAuthCtx u s now timeout) = u.id) := by
  refine ⟨?_, ?_, ?_⟩
  · intro imp himp hen hexp hnz
    have hmain : getActorIDForAudit (mkAuthCtx u s now timeout) = imp.originalAdminID := by
      simp [mkAuthCtx, himp, hen, hexp, getActorIDForAudit, hnz]
    exact ⟨hmain, fun hne => by rw [hmain]; exact fun hEq => hne hEq.symm⟩
  · intro hall
    match hs : s.impersonationState with
    | none => simp [mkAuthCtx, hs, getActorIDForAudit, actorFallback]
    | some imp =>
      rcases hall imp hs with h | h
      · simp [mkAuthCtx, hs, h, getActorIDForAudit, actorFallback]
      · simp [mkAuthCtx, hs, h, getActorIDForAudit, actorFallback]
  · intro hs
    simp [mkAuthCtx, hs, getActorIDForAudit, actorFallback]

/-- Claim C3 witness: while `adminA` impersonates `userB` (context user is
the target, ID 2), the helper attributes to the admin (ID 1); with no
grant, it attributes to the authenticated user. -/
theorem actorForAudit_attribution_witness :
    getActorIDForAudit (mkAuthCtx userB sImp 20 100) = 1 ∧
    getActorIDForAudit (mkAuthCtx userB sImp 20 100) ≠ 2 ∧
    getActorIDForAudit (mkAuthCtx adminA sNoGrant 20 100) = 1 := by
  have h := (actorForAudit_attribution userB sImp 20 100).1 impGrant rfl rfl
    (by decide) (by decide)
  exact ⟨h.1, h.2 (by decide), (actorForAudit_attribution adminA sNoGrant 20 100).2.2 rfl⟩
